import Mathlib

/-!
Shallow embedding of the request-orchestration workflow of
`src/langgraph_agent.py` (class `WolframAlphaLangGraphAgent`).

External effects (the two language-model invocations per branch, and the
Wolfram Alpha HTTP call) are modelled as an `Oracles` record: each network
call is a value of type `Except String α`, where `Except.error e` stands for
the Python exception (with message `e`) raised by that call, and `Except.ok`
stands for its normal return value.  Everything else is translated directly
from the source: each LangGraph node is a Lean function on `AgentState`,
the graph wiring of `_build_workflow` becomes `run_workflow`, and the
instance attribute `self.last_used_wolfram` becomes the explicit
`AgentInstance` value threaded through `chat`.
-/

namespace AugmentingWolfram

/-- Embeds the `ToolResult` dataclass (lines 26-32): `success`, `result`,
`error`, `source`; `result` is a string on success and `None` on failure. -/
structure ToolResult where
  success : Bool
  result : Option String
  error : Option String := none
  source : Option String := none
deriving Repr, DecidableEq

/-- One subpod of the Wolfram Alpha JSON answer; `plaintext` is `none` when
the key is missing (or null), matching `subpod.get('plaintext', '')`. -/
structure Subpod where
  plaintext : Option String
deriving Repr, DecidableEq

/-- One pod of the Wolfram Alpha JSON answer; optional fields model missing
keys, accessed in the source with `pod.get('title', '')` and
`pod.get('subpods', [])`. -/
structure Pod where
  title : Option String
  subpods : Option (List Subpod)
deriving Repr, DecidableEq

/-- The `queryresult` object: `success` and `pods` may be absent, matching
`.get('success', False)` and `.get('pods', [])`. -/
structure QueryResult where
  success : Option Bool
  pods : Option (List Pod)
deriving Repr, DecidableEq

/-- The decoded JSON body returned by the Wolfram Alpha API; the top-level
`queryresult` key may be absent, matching `data.get('queryresult', {})`. -/
structure WolframData where
  queryresult : Option QueryResult
deriving Repr, DecidableEq

/-- A turn-log entry: `HumanMessage`, `SystemMessage` or `AIMessage`. -/
inductive Message where
  | human (content : String)
  | system (content : String)
  | ai (content : String)
deriving Repr, DecidableEq

/-- Embeds the `AgentState` TypedDict (lines 34-41). -/
structure AgentState where
  messages : List Message
  user_query : String
  needs_wolfram : Bool
  wolfram_result : Option String
  final_response : Option String
  used_wolfram : Bool
deriving Repr, DecidableEq

/-- Which of the two synthesis prompts `_generate_response` sends to the
language model: the Wolfram-based prompt (original question plus Wolfram
result, lines 315-335) or the direct prompt (original question only,
lines 338-348). -/
inductive SynthPath where
  | wolframBased
  | direct
deriving Repr, DecidableEq

/-- The external calls of one `chat` invocation, abstracted: the
classification LLM call (line 143), the query-formulation LLM call
(line 206), the Wolfram Alpha HTTP GET with its JSON decoding
(lines 248-251, where `Except.error` covers `requests.RequestException`
and any other exception), and the synthesis LLM call (lines 330/346),
indexed by which of the two prompts is sent. -/
structure Oracles where
  classifierReply : Except String String
  formulatorReply : Except String String
  wolframHttp : Except String WolframData
  synthReply : SynthPath → Except String String

/-- Embeds the instance attribute `self.last_used_wolfram` (line 72). -/
structure AgentInstance where
  last_used_wolfram : Bool
deriving Repr, DecidableEq

/-- Models Python's `str.strip()` (both claims and source only rely on
ordinary ASCII whitespace): drop whitespace from both ends. -/
def py_strip (s : String) : String :=
  String.mk (((s.data.dropWhile Char.isWhitespace).reverse.dropWhile
    Char.isWhitespace).reverse)

/-- Models Python's `str.upper()` on the character sequence. -/
def py_upper (s : String) : String :=
  String.mk (s.data.map Char.toUpper)

/-- Models Python's `str.lower()` on the character sequence. -/
def py_lower (s : String) : String :=
  String.mk (s.data.map Char.toLower)

/-- Models Python's `sep.join(xs)`. -/
def py_join (sep : String) (xs : List String) : String :=
  match xs with
  | [] => ""
  | x :: rest => rest.foldl (fun acc y => acc ++ sep ++ y) x

/-- How Python renders an `Optional[str]` inside an f-string: the string
itself, or `"None"`. -/
def optStr (s : Option String) : String :=
  match s with
  | some t => t
  | none => "None"

/-- Python truthiness of an `Optional[str]`: `None` and `""` are falsy. -/
def truthy (s : Option String) : Bool :=
  match s with
  | some t => t != ""
  | none => false

/-- Embeds `_classify_query` (lines 104-169): on a successful LLM reply the
decision is `response.content.strip().upper() == "YES"`; on an exception the
decision fails closed to `False` and the error is logged to the state's
message list.  In both branches `used_wolfram` is set to `False` and one
`SystemMessage` is appended. -/
def classify_query (o : Oracles) (state : AgentState) : AgentState :=
  match o.classifierReply with
  | Except.ok content =>
      let needs_wolfram := py_upper (py_strip content) == "YES"
      { state with
          needs_wolfram := needs_wolfram,
          used_wolfram := false,
          messages := state.messages ++
            [Message.system ("Query classification: " ++
               (if needs_wolfram then "Needs Wolfram Alpha" else "Direct response"))] }
  | Except.error e =>
      { state with
          needs_wolfram := false,
          used_wolfram := false,
          messages := state.messages ++
            [Message.system ("Classification error: " ++ e)] }

/-- Embeds `_should_use_wolfram` (lines 171-173). -/
def should_use_wolfram (state : AgentState) : String :=
  if state.needs_wolfram then "wolfram" else "direct"

/-- Embeds `pod_lines`, the result-extraction loop of
`_execute_wolfram_query` (lines 263-273): iterate pods in order, subpods in
order, and for each subpod whose plaintext is truthy and has truthy strip,
append `f"{title}: {plaintext}"`. -/
def pod_lines (pods : List Pod) : List String :=
  pods.flatMap (fun pod =>
    (pod.subpods.getD []).filterMap (fun subpod =>
      let plaintext := subpod.plaintext.getD ""
      if plaintext != "" && py_strip plaintext != "" then
        some ((pod.title.getD "") ++ ": " ++ plaintext)
      else
        none))

/-- Embeds `_execute_wolfram_query` (lines 237-308).  The argument is the
outcome of `requests.get(...).raise_for_status()` plus `response.json()`:
`Except.error` covers `requests.RequestException` (connection error,
timeout, non-2xx status) caught at line 293; the source's second handler for
unexpected exceptions (line 301) is unreachable in the embedding because the
body after JSON decoding is total. -/
def execute_wolfram_query (httpResponse : Except String WolframData) : ToolResult :=
  match httpResponse with
  | Except.error e =>
      { success := false, result := none,
        error := some ("API request failed: " ++ e),
        source := some "wolfram_alpha" }
  | Except.ok data =>
      match data.queryresult with
      | none =>
          { success := false, result := none,
            error := some "Wolfram Alpha could not process the query",
            source := some "wolfram_alpha" }
      | some qr =>
          if qr.success.getD false = false then
            { success := false, result := none,
              error := some "Wolfram Alpha could not process the query",
              source := some "wolfram_alpha" }
          else
            if pod_lines (qr.pods.getD []) = [] then
              { success := false, result := none,
                error := some "No readable results found",
                source := some "wolfram_alpha" }
            else
              { success := true,
                result := some (py_join "\n" (pod_lines (qr.pods.getD []))),
                error := none,
                source := some "wolfram_alpha" }

/-- Embeds `_query_wolfram` (lines 175-235): formulate the Wolfram query via
the LLM (on exception: record the error, `used_wolfram := false`), then run
`_execute_wolfram_query` and store `result.result` on success or
`f"Error: {result.error}"` on failure, with `used_wolfram := result.success`
and two `SystemMessage` log entries. -/
def query_wolfram (o : Oracles) (state : AgentState) : AgentState :=
  match o.formulatorReply with
  | Except.ok content =>
      let wolfram_query := py_strip content
      let result := execute_wolfram_query o.wolframHttp
      { state with
          wolfram_result := some (if result.success then optStr result.result
                                  else "Error: " ++ optStr result.error),
          used_wolfram := result.success,
          messages := state.messages ++
            [Message.system ("Wolfram Query: " ++ wolfram_query),
             Message.system ("Wolfram Result: " ++
               (if result.success then optStr result.result else optStr result.error))] }
  | Except.error e =>
      { state with
          wolfram_result := some ("Error querying Wolfram Alpha: " ++ e),
          used_wolfram := false,
          messages := state.messages ++
            [Message.system ("Wolfram Alpha error: " ++ e)] }

/-- The branch condition of `_generate_response` (line 314):
`state["needs_wolfram"] and state.get("wolfram_result") and
state.get("used_wolfram")`, with Python truthiness on the optional string. -/
def wolfram_branch (state : AgentState) : Bool :=
  state.needs_wolfram && truthy state.wolfram_result && state.used_wolfram

/-- Embeds `_generate_response` (lines 310-357).  Unlike the other two
nodes this one has no try/except, so an LLM failure propagates to the
caller: the function returns `Except.error`.  On success the reply becomes
`final_response` and is appended to the log as an `AIMessage`.  (The update
of `self.last_used_wolfram` at line 351 writes the same value that `chat`
writes again at line 385; the embedding performs it once, in `chat`.) -/
def generate_response (o : Oracles) (state : AgentState) : Except String AgentState :=
  match o.synthReply (if wolfram_branch state then SynthPath.wolframBased
                      else SynthPath.direct) with
  | Except.error e => Except.error e
  | Except.ok content =>
      Except.ok { state with
        final_response := some content,
        messages := state.messages ++ [Message.ai content] }

/-- Embeds the compiled graph of `_build_workflow` (lines 80-102): entry
point `classifier`, conditional edges keyed by `_should_use_wolfram`
(`"wolfram"` to `wolfram_search`, `"direct"` to `generate_response`), then
`wolfram_search -> generate_response -> END`. -/
def run_workflow (o : Oracles) (state : AgentState) : Except String AgentState :=
  let s1 := classify_query o state
  let s2 := if should_use_wolfram s1 == "wolfram" then query_wolfram o s1 else s1
  generate_response o s2

/-- The initial state built by `chat` (lines 372-379). -/
def initial_state (user_message : String) : AgentState :=
  { messages := [Message.human user_message],
    user_query := user_message,
    needs_wolfram := false,
    wolfram_result := none,
    final_response := none,
    used_wolfram := false }

/-- Embeds `chat` (lines 359-400).  The Python method returns only the
response string; the `used_wolfram` flag of the final state is written to
the instance attribute `self.last_used_wolfram` (line 385), which the
embedding returns as the updated `AgentInstance`.  Any exception escaping
the workflow is caught (line 398) and converted into the apology string,
leaving the instance attribute at its prior value. -/
def chat (o : Oracles) (inst : AgentInstance) (user_message : String) :
    String × AgentInstance :=
  match run_workflow o (initial_state user_message) with
  | Except.ok final_state =>
      (optStr final_state.final_response,
       { last_used_wolfram := final_state.used_wolfram })
  | Except.error e =>
      ("I apologize, but I encountered an error processing your request: " ++ e, inst)

/-- The pre-synthesis state of one workflow run: the classifier output,
routed through `wolfram_search` exactly when the conditional edge selects
`"wolfram"`. -/
def pre_state (o : Oracles) (state : AgentState) : AgentState :=
  if should_use_wolfram (classify_query o state) == "wolfram" then
    query_wolfram o (classify_query o state)
  else
    classify_query o state

/-- Helper to extract the success value of an `Except`. -/
def okOr (x : Except String AgentState) (d : AgentState) : AgentState :=
  match x with
  | Except.ok s => s
  | Except.error _ => d

lemma strip_cond (pt : String) :
    (pt != "" && py_strip pt != "") = (py_strip pt != "") := by
  by_cases h : pt = ""
  · subst h; decide
  · have hb : (pt == "") = false := beq_eq_false_iff_ne.mpr h
    simp [bne, hb]

lemma pod_lines_spec (pods : List Pod) :
    pod_lines pods = pods.flatMap (fun pod =>
      (pod.subpods.getD []).filterMap (fun subpod =>
        if py_strip (subpod.plaintext.getD "") != "" then
          some ((pod.title.getD "") ++ ": " ++ subpod.plaintext.getD "")
        else none)) := by
  simp only [pod_lines, strip_cond]

lemma classify_needs_ok (o : Oracles) (st : AgentState) (r : String)
    (h : o.classifierReply = Except.ok r) :
    (classify_query o st).needs_wolfram = (py_upper (py_strip r) == "YES") := by
  simp [classify_query, h]

lemma classify_needs_err (o : Oracles) (st : AgentState) (e : String)
    (h : o.classifierReply = Except.error e) :
    (classify_query o st).needs_wolfram = false := by
  simp [classify_query, h]

lemma classify_used (o : Oracles) (st : AgentState) :
    (classify_query o st).used_wolfram = false := by
  cases h : o.classifierReply <;> simp [classify_query, h]

lemma classify_messages (o : Oracles) (st : AgentState) :
    ∃ t, (classify_query o st).messages = st.messages ++ t := by
  cases h : o.classifierReply with
  | ok r =>
      refine ⟨[Message.system ("Query classification: " ++
        (if py_upper (py_strip r) == "YES" then "Needs Wolfram Alpha"
         else "Direct response"))], ?_⟩
      simp [classify_query, h]
  | error e =>
      refine ⟨[Message.system ("Classification error: " ++ e)], ?_⟩
      simp [classify_query, h]

lemma qw_needs (o : Oracles) (st : AgentState) :
    (query_wolfram o st).needs_wolfram = st.needs_wolfram := by
  cases h : o.formulatorReply <;> simp [query_wolfram, h]

lemma qw_used_ok (o : Oracles) (st : AgentState) (q : String)
    (h : o.formulatorReply = Except.ok q) :
    (query_wolfram o st).used_wolfram = (execute_wolfram_query o.wolframHttp).success := by
  simp [query_wolfram, h]

lemma qw_used_err (o : Oracles) (st : AgentState) (e : String)
    (h : o.formulatorReply = Except.error e) :
    (query_wolfram o st).used_wolfram = false := by
  simp [query_wolfram, h]

lemma qw_result_some (o : Oracles) (st : AgentState) :
    ∃ t, (query_wolfram o st).wolfram_result = some t := by
  cases h : o.formulatorReply with
  | ok q =>
      refine ⟨if (execute_wolfram_query o.wolframHttp).success then
          optStr (execute_wolfram_query o.wolframHttp).result
        else "Error: " ++ optStr (execute_wolfram_query o.wolframHttp).error, ?_⟩
      simp [query_wolfram, h]
  | error e =>
      refine ⟨"Error querying Wolfram Alpha: " ++ e, ?_⟩
      simp [query_wolfram, h]

lemma qw_messages (o : Oracles) (st : AgentState) :
    ∃ t, (query_wolfram o st).messages = st.messages ++ t := by
  cases h : o.formulatorReply with
  | ok q =>
      refine ⟨[Message.system ("Wolfram Query: " ++ py_strip q),
        Message.system ("Wolfram Result: " ++
          (if (execute_wolfram_query o.wolframHttp).success then
            optStr (execute_wolfram_query o.wolframHttp).result
          else optStr (execute_wolfram_query o.wolframHttp).error))], ?_⟩
      simp [query_wolfram, h]
  | error e =>
      refine ⟨[Message.system ("Wolfram Alpha error: " ++ e)], ?_⟩
      simp [query_wolfram, h]

lemma generate_response_ok (o : Oracles) (st s : AgentState)
    (h : generate_response o st = Except.ok s) :
    ∃ r, o.synthReply (if wolfram_branch st then SynthPath.wolframBased
                       else SynthPath.direct) = Except.ok r ∧
      s = { st with final_response := some r,
                    messages := st.messages ++ [Message.ai r] } := by
  unfold generate_response at h
  cases hr : o.synthReply (if wolfram_branch st then SynthPath.wolframBased
                           else SynthPath.direct) with
  | error e => rw [hr] at h; exact absurd h (by simp)
  | ok r =>
      rw [hr] at h
      exact ⟨r, rfl, by injection h with h2; exact h2.symm⟩

lemma run_workflow_eq (o : Oracles) (st : AgentState) :
    run_workflow o st = generate_response o (pre_state o st) := by
  simp only [run_workflow, pre_state]

lemma run_ok_fields (o : Oracles) (st s : AgentState)
    (h : run_workflow o st = Except.ok s) :
    s.needs_wolfram = (pre_state o st).needs_wolfram ∧
    s.used_wolfram = (pre_state o st).used_wolfram ∧
    s.wolfram_result = (pre_state o st).wolfram_result ∧
    ∃ r, o.synthReply (if wolfram_branch (pre_state o st) then SynthPath.wolframBased
                       else SynthPath.direct) = Except.ok r ∧
      s.final_response = some r ∧
      s.messages = (pre_state o st).messages ++ [Message.ai r] := by
  rw [run_workflow_eq] at h
  obtain ⟨r, hr, hs⟩ := generate_response_ok o (pre_state o st) s h
  subst hs
  exact ⟨rfl, rfl, rfl, r, hr, rfl, rfl⟩

lemma should_use_wolfram_beq (st : AgentState) :
    (should_use_wolfram st == "wolfram") = st.needs_wolfram := by
  cases h : st.needs_wolfram <;> simp [should_use_wolfram, h]

lemma pre_needs (o : Oracles) (st : AgentState) :
    (pre_state o st).needs_wolfram = (classify_query o st).needs_wolfram := by
  unfold pre_state
  rw [should_use_wolfram_beq]
  by_cases h : (classify_query o st).needs_wolfram <;> simp [h, qw_needs]

lemma pre_used_iff (o : Oracles) (st : AgentState) :
    (pre_state o st).used_wolfram = true ↔
      ((classify_query o st).needs_wolfram = true ∧
       (∃ q, o.formulatorReply = Except.ok q) ∧
       (execute_wolfram_query o.wolframHttp).success = true) := by
  unfold pre_state
  rw [should_use_wolfram_beq]
  by_cases hn : (classify_query o st).needs_wolfram
  · simp only [hn, if_true]
    cases hf : o.formulatorReply with
    | ok q => simp [qw_used_ok o (classify_query o st) q hf, hf]
    | error e => simp [qw_used_err o (classify_query o st) e hf, hf]
  · simp [hn, classify_used]

lemma pre_result_some_of_needs (o : Oracles) (st : AgentState)
    (hn : (classify_query o st).needs_wolfram = true) :
    ∃ t, (pre_state o st).wolfram_result = some t := by
  unfold pre_state
  rw [should_use_wolfram_beq, hn]
  simpa using qw_result_some o (classify_query o st)

lemma pre_messages (o : Oracles) (st : AgentState) :
    ∃ t, (pre_state o st).messages = st.messages ++ t := by
  unfold pre_state
  rw [should_use_wolfram_beq]
  by_cases hn : (classify_query o st).needs_wolfram
  · simp only [hn, if_true]
    obtain ⟨t1, h1⟩ := classify_messages o st
    obtain ⟨t2, h2⟩ := qw_messages o (classify_query o st)
    exact ⟨t1 ++ t2, by rw [h2, h1, List.append_assoc]⟩
  · simp only [hn]
    simpa using classify_messages o st

/-- The `queryresult` object of the spec's scenario A: one pod with one
readable subpod. -/
def qrA : QueryResult :=
  QueryResult.mk (some true)
    (some [Pod.mk (some "Indefinite integral")
      (some [Subpod.mk (some "x^3/3 + (3 x^2)/2 + constant")])])

/-- Concrete API response of the spec's scenario A. -/
def sampleSuccessData : WolframData := WolframData.mk (some qrA)

/-- Concrete API response of the spec's scenario B:
`queryresult.success = false`. -/
def sampleFailureData : WolframData :=
  WolframData.mk (some (QueryResult.mk (some false) none))

/-- Oracle set: classifier says YES, lookup succeeds. -/
def oW : Oracles :=
  ⟨Except.ok "YES", Except.ok "integral of x^2 + 3x",
   Except.ok sampleSuccessData, fun _ => Except.ok "Hello!"⟩

/-- Oracle set: classifier says NO, same synthesis text as `oW`. -/
def oN : Oracles :=
  ⟨Except.ok "NO", Except.ok "q",
   Except.ok sampleSuccessData, fun _ => Except.ok "Hello!"⟩

/-- Oracle set: classifier says YES, lookup reports no success. -/
def oFailLookup : Oracles :=
  ⟨Except.ok "YES", Except.ok "q", Except.ok sampleFailureData,
   fun p => Except.ok (match p with
     | SynthPath.direct => "direct answer"
     | SynthPath.wolframBased => "wolfram answer")⟩

/-- Oracle set: the synthesis LLM call raises. -/
def oSynthBoom : Oracles :=
  ⟨Except.ok "NO", Except.ok "q", Except.ok sampleFailureData,
   fun _ => Except.error "boom"⟩

/-- Oracle set: the classification LLM call raises. -/
def oClassBoom : Oracles :=
  ⟨Except.error "rate limited", Except.ok "q",
   Except.ok sampleSuccessData, fun _ => Except.ok "Hello!"⟩

/-- Oracle set: classifier replies with a spaced lowercase yes. -/
def oYesSpaced : Oracles :=
  ⟨Except.ok " yes ", Except.ok "q",
   Except.ok sampleSuccessData, fun _ => Except.ok "Hello!"⟩

/-- The final state of a run of `oW` on input "hi". -/
def sW : AgentState := okOr (run_workflow oW (initial_state "hi")) (initial_state "hi")

/-- C1: in every completed chat invocation, `used_wolfram` is true iff
`needs_wolfram` is true and the Wolfram Alpha call was made (query
formulation did not raise) and returned a success outcome; moreover when
`used_wolfram` is true a lookup result is present in the state. -/
theorem used_wolfram_iff_lookup_success (o : Oracles) (m : String) (s : AgentState)
    (h : run_workflow o (initial_state m) = Except.ok s) :
    (s.used_wolfram = true ↔
       (s.needs_wolfram = true ∧ (∃ q, o.formulatorReply = Except.ok q) ∧
        (execute_wolfram_query o.wolframHttp).success = true)) ∧
    (s.used_wolfram = true → ∃ t, s.wolfram_result = some t) := by
  obtain ⟨hn, hu, hw, -⟩ := run_ok_fields o (initial_state m) s h
  constructor
  · rw [hu, hn, pre_needs]
    exact pre_used_iff o (initial_state m)
  · intro ht
    rw [hw]
    have hpre : (pre_state o (initial_state m)).used_wolfram = true := by
      rw [← hu]; exact ht
    exact pre_result_some_of_needs o (initial_state m)
      ((pre_used_iff o (initial_state m)).mp hpre).1

/-- Witness for C1: the concrete success scenario `oW` reaches a final
state with `used_wolfram = true`, and the theorem applies to it. -/
theorem used_wolfram_iff_lookup_success_witness :
    sW.used_wolfram = true ∧
    (sW.used_wolfram = true ↔
       (sW.needs_wolfram = true ∧ (∃ q, oW.formulatorReply = Except.ok q) ∧
        (execute_wolfram_query oW.wolframHttp).success = true)) :=
  ⟨by decide, (used_wolfram_iff_lookup_success oW "hi" sW (by rfl)).1⟩

/-- C2 fails on the code: `chat` returns only the response string, so its
return value cannot carry the `used_wolfram` flag — two runs that differ in
whether the lookup was used return the identical value, and the flag is
communicated instead through the instance attribute `last_used_wolfram`,
which is shared by every call on the same agent object. -/
theorem chat_returns_no_flag :
    (chat oN ⟨false⟩ "hi").1 = (chat oW ⟨false⟩ "hi").1 ∧
    (chat oN ⟨false⟩ "hi").2.last_used_wolfram = false ∧
    (chat oW ⟨false⟩ "hi").2.last_used_wolfram = true :=
  ⟨by decide, by decide, by decide⟩

/-- C4: the classifier sets `needs_wolfram` exactly when the model reply,
stripped of surrounding whitespace and uppercased, equals the token YES;
any other reply yields false. -/
theorem classifier_yes_iff_needs_wolfram (o : Oracles) (st : AgentState) (reply : String)
    (h : o.classifierReply = Except.ok reply) :
    ((classify_query o st).needs_wolfram = true ↔
      py_upper (py_strip reply) = "YES") := by
  rw [classify_needs_ok o st reply h]
  simp

/-- Witness for C4: the reply " yes " yields `needs_wolfram = true` via the
theorem, while the replies "NO", "" and "YES!" yield false. -/
theorem classifier_yes_iff_needs_wolfram_witness :
    (classify_query oYesSpaced (initial_state "m")).needs_wolfram = true ∧
    (classify_query oN (initial_state "m")).needs_wolfram = false ∧
    (classify_query ⟨Except.ok "", Except.ok "q", Except.ok sampleSuccessData,
        fun _ => Except.ok "x"⟩ (initial_state "m")).needs_wolfram = false ∧
    (classify_query ⟨Except.ok "YES!", Except.ok "q", Except.ok sampleSuccessData,
        fun _ => Except.ok "x"⟩ (initial_state "m")).needs_wolfram = false :=
  ⟨(classifier_yes_iff_needs_wolfram oYesSpaced (initial_state "m") " yes " rfl).mpr
      (by decide),
   by decide, by decide, by decide⟩

/-- C8: when the classification LLM call raises, the decision fails closed
(`needs_wolfram = false`, `used_wolfram = false`), the failure is appended
to the turn log as a system entry, and the stage returns a state rather
than propagating the exception (`classify_query` is a total function). -/
theorem classification_fails_closed (o : Oracles) (st : AgentState) (e : String)
    (h : o.classifierReply = Except.error e) :
    (classify_query o st).needs_wolfram = false ∧
    (classify_query o st).used_wolfram = false ∧
    (classify_query o st).messages =
      st.messages ++ [Message.system ("Classification error: " ++ e)] := by
  refine ⟨classify_needs_err o st e h, classify_used o st, ?_⟩
  simp [classify_query, h]

/-- Witness for C8 at a concrete classification failure. -/
theorem classification_fails_closed_witness :
    (classify_query oClassBoom (initial_state "hi")).needs_wolfram = false ∧
    (classify_query oClassBoom (initial_state "hi")).used_wolfram = false ∧
    (classify_query oClassBoom (initial_state "hi")).messages =
      (initial_state "hi").messages ++
        [Message.system ("Classification error: " ++ "rate limited")] :=
  classification_fails_closed oClassBoom (initial_state "hi") "rate limited" rfl

/-- The final state of a run of `oFailLookup` on input "hi". -/
def sFail : AgentState :=
  okOr (run_workflow oFailLookup (initial_state "hi")) (initial_state "hi")

/-- C3: when the API reports overall success, the client walks pods in
order and subpods in order, keeps one line `<pod title>: <plaintext>` per
subpod whose plaintext is non-empty after stripping (others are skipped
without error), returns failure with the no-readable-results message (the
claim's wording matches it case-insensitively) when no line was collected,
and otherwise returns success with the lines joined by newlines. -/
theorem execute_success_parses_pods (data : WolframData) (qr : QueryResult)
    (hq : data.queryresult = some qr) (hs : qr.success.getD false = true) :
    (pod_lines (qr.pods.getD []) = (qr.pods.getD []).flatMap (fun pod =>
       (pod.subpods.getD []).filterMap (fun subpod =>
         if py_strip (subpod.plaintext.getD "") != "" then
           some ((pod.title.getD "") ++ ": " ++ subpod.plaintext.getD "")
         else none))) ∧
    (pod_lines (qr.pods.getD []) = [] →
       execute_wolfram_query (Except.ok data) =
         { success := false, result := none,
           error := some "No readable results found",
           source := some "wolfram_alpha" } ∧
       py_lower "No readable results found" = "no readable results found") ∧
    (pod_lines (qr.pods.getD []) ≠ [] →
       execute_wolfram_query (Except.ok data) =
         { success := true,
           result := some (py_join "\n" (pod_lines (qr.pods.getD []))),
           error := none, source := some "wolfram_alpha" }) := by
  refine ⟨pod_lines_spec _, ?_, ?_⟩
  · intro he
    refine ⟨?_, by decide⟩
    simp [execute_wolfram_query, hq, hs, he]
  · intro hne
    simp [execute_wolfram_query, hq, hs, hne]

/-- Witness for C3 at the spec's scenario A: the single readable subpod
yields the single expected line. -/
theorem execute_success_parses_pods_witness :
    execute_wolfram_query (Except.ok sampleSuccessData) =
      { success := true,
        result := some (py_join "\n" (pod_lines (qrA.pods.getD []))),
        error := none, source := some "wolfram_alpha" } ∧
    py_join "\n" (pod_lines (qrA.pods.getD [])) =
      "Indefinite integral: x^3/3 + (3 x^2)/2 + constant" :=
  ⟨(execute_success_parses_pods sampleSuccessData qrA rfl (by decide)).2.2 (by decide),
   by decide⟩

/-- C5: when the decoded response does not report overall success
(`queryresult.success` absent, false, or `queryresult` itself absent), the
client returns a failure outcome whose message extends the claim's phrase
"could not process the query", with no success payload; and every completed
run whose HTTP call returned such a response ends with
`used_wolfram = false`. -/
theorem unsuccessful_query_failure (data : WolframData)
    (h : (data.queryresult.bind QueryResult.success).getD false = false) :
    execute_wolfram_query (Except.ok data) =
      { success := false, result := none,
        error := some ("Wolfram Alpha " ++ "could not process the query"),
        source := some "wolfram_alpha" } ∧
    (∀ o m s, o.wolframHttp = Except.ok data →
       run_workflow o (initial_state m) = Except.ok s →
       s.used_wolfram = false) := by
  have happ : ("Wolfram Alpha " ++ "could not process the query" : String) =
      "Wolfram Alpha could not process the query" := by decide
  have hex : execute_wolfram_query (Except.ok data) =
      { success := false, result := none,
        error := some ("Wolfram Alpha " ++ "could not process the query"),
        source := some "wolfram_alpha" } := by
    cases hq : data.queryresult with
    | none => simp [execute_wolfram_query, hq, happ]
    | some qr =>
        have hs : qr.success.getD false = false := by
          rw [hq] at h; simpa using h
        simp [execute_wolfram_query, hq, hs, happ]
  refine ⟨hex, ?_⟩
  intro o m s ho hrun
  obtain ⟨-, hu, -, -⟩ := run_ok_fields o (initial_state m) s hrun
  rw [hu]
  have hfa : (execute_wolfram_query o.wolframHttp).success = false := by
    rw [ho, hex]
  cases hb : (pre_state o (initial_state m)).used_wolfram with
  | false => rfl
  | true =>
      obtain ⟨-, -, hsucc⟩ := (pre_used_iff o (initial_state m)).mp hb
      rw [hfa] at hsucc
      exact absurd hsucc (by simp)

/-- Witness for C5 at the spec's scenario B: `queryresult.success = false`
gives the failure outcome, and the concrete run `oFailLookup` ends with
`used_wolfram = false`. -/
theorem unsuccessful_query_failure_witness :
    execute_wolfram_query (Except.ok sampleFailureData) =
      { success := false, result := none,
        error := some ("Wolfram Alpha " ++ "could not process the query"),
        source := some "wolfram_alpha" } ∧
    sFail.used_wolfram = false :=
  ⟨(unsuccessful_query_failure sampleFailureData (by decide)).1,
   (unsuccessful_query_failure sampleFailureData (by decide)).2
     oFailLookup "hi" sFail rfl (by rfl)⟩

/-- C6: whenever the lookup branch was taken and the lookup outcome is a
failure of any kind (formulation error, or any failed `ToolResult` covering
transport, timeout, HTTP and semantic failures), the final answer is the
output of the direct synthesis prompt (original question only) and the
final `used_wolfram` flag is false. -/
theorem lookup_failure_direct_path (o : Oracles) (m : String) (s : AgentState)
    (_hneeds : (classify_query o (initial_state m)).needs_wolfram = true)
    (hfail : ∀ q, o.formulatorReply = Except.ok q →
       (execute_wolfram_query o.wolframHttp).success = false)
    (h : run_workflow o (initial_state m) = Except.ok s) :
    s.used_wolfram = false ∧
    ∃ r, o.synthReply SynthPath.direct = Except.ok r ∧
      s.final_response = some r := by
  obtain ⟨hn, hu, hw, r, hr, hfr, -⟩ := run_ok_fields o (initial_state m) s h
  have hused : (pre_state o (initial_state m)).used_wolfram = false := by
    cases hb : (pre_state o (initial_state m)).used_wolfram with
    | false => rfl
    | true =>
        obtain ⟨-, ⟨q, hq⟩, hsucc⟩ := (pre_used_iff o (initial_state m)).mp hb
        rw [hfail q hq] at hsucc
        exact absurd hsucc (by simp)
  have hbranch : wolfram_branch (pre_state o (initial_state m)) = false := by
    simp [wolfram_branch, hused]
  rw [hbranch] at hr
  refine ⟨by rw [hu, hused], r, by simpa using hr, hfr⟩

/-- Witness for C6: in the concrete failed-lookup run `oFailLookup`, the
final answer is the direct-prompt reply and the flag is false. -/
theorem lookup_failure_direct_path_witness :
    sFail.used_wolfram = false ∧
    ∃ r, oFailLookup.synthReply SynthPath.direct = Except.ok r ∧
      sFail.final_response = some r :=
  lookup_failure_direct_path oFailLookup "hi" sFail (by decide)
    (fun _ _ => by decide) (by rfl)

/-- C7: any exception escaping a workflow stage (in the embedding: any
`Except.error` produced by `run_workflow`, which the stages below the
orchestrator never produce except the unguarded synthesis LLM call) is
caught by `chat`, which returns the apology string built from the error and
leaves the instance flag untouched; `chat` is a total function, so no
failure propagates to its caller. -/
theorem chat_catches_exceptions (o : Oracles) (inst : AgentInstance) (m e : String)
    (h : run_workflow o (initial_state m) = Except.error e) :
    chat o inst m =
      ("I apologize, but I encountered an error processing your request: " ++ e,
       inst) := by
  unfold chat
  rw [h]

/-- Witness for C7 at a concrete synthesis failure. -/
theorem chat_catches_exceptions_witness :
    chat oSynthBoom ⟨false⟩ "hi" =
      ("I apologize, but I encountered an error processing your request: " ++ "boom",
       ⟨false⟩) :=
  chat_catches_exceptions oSynthBoom ⟨false⟩ "hi" "boom" (by rfl)

/-- C9: the turn log is append-only: each stage returns a state whose
message list extends the incoming list at the end (so earlier entries are
never mutated, reordered or removed), and a completed run's final log still
starts with the initial human entry. -/
theorem turn_log_append_only (o : Oracles) (st : AgentState) :
    (∃ t, (classify_query o st).messages = st.messages ++ t) ∧
    (∃ t, (query_wolfram o st).messages = st.messages ++ t) ∧
    (∀ s2, generate_response o st = Except.ok s2 →
       ∃ t, s2.messages = st.messages ++ t) ∧
    (∀ m s, run_workflow o (initial_state m) = Except.ok s →
       ∃ t, s.messages = Message.human m :: t) := by
  refine ⟨classify_messages o st, qw_messages o st, ?_, ?_⟩
  · intro s2 h
    obtain ⟨r, -, hs⟩ := generate_response_ok o st s2 h
    subst hs
    exact ⟨[Message.ai r], rfl⟩
  · intro m s h
    obtain ⟨-, -, -, r, -, -, hmsg⟩ := run_ok_fields o (initial_state m) s h
    obtain ⟨t, hp⟩ := pre_messages o (initial_state m)
    refine ⟨t ++ [Message.ai r], ?_⟩
    rw [hmsg, hp]
    simp [initial_state]

/-- Witness for C9 at the concrete run `oW`. -/
theorem turn_log_append_only_witness :
    (∃ t, (classify_query oW (initial_state "hi")).messages =
       (initial_state "hi").messages ++ t) ∧
    (∃ t, sW.messages = Message.human "hi" :: t) :=
  ⟨(turn_log_append_only oW (initial_state "hi")).1,
   (turn_log_append_only oW (initial_state "hi")).2.2.2 "hi" sW (by rfl)⟩

/-- C10: response parsing is total over missing fields (the embedding's
`execute_wolfram_query` is a total function of the decoded body): a missing
`queryresult` yields the could-not-process failure, a missing `success`
counts as false and gives the same failure, a missing `pods` list counts as
empty and gives the no-readable-results failure, pods without `subpods` and
subpods without `plaintext` contribute nothing, and a missing pod `title`
defaults to the empty string so the line begins with ": ". -/
theorem parsing_total_missing_fields :
    (∀ data, data.queryresult = none →
       execute_wolfram_query (Except.ok data) =
         { success := false, result := none,
           error := some ("Wolfram Alpha " ++ "could not process the query"),
           source := some "wolfram_alpha" }) ∧
    (∀ data qr, data.queryresult = some qr → qr.success = none →
       execute_wolfram_query (Except.ok data) =
         { success := false, result := none,
           error := some ("Wolfram Alpha " ++ "could not process the query"),
           source := some "wolfram_alpha" }) ∧
    (∀ data qr, data.queryresult = some qr → qr.success = some true →
       qr.pods = none →
       execute_wolfram_query (Except.ok data) =
         { success := false, result := none,
           error := some "No readable results found",
           source := some "wolfram_alpha" }) ∧
    (∀ t, pod_lines [Pod.mk t none] = []) ∧
    (∀ t, pod_lines [Pod.mk t (some [Subpod.mk none])] = []) ∧
    (∀ pt, py_strip pt ≠ "" →
       pod_lines [Pod.mk none (some [Subpod.mk (some pt)])] = [": " ++ pt]) := by
  have happ : ("Wolfram Alpha " ++ "could not process the query" : String) =
      "Wolfram Alpha could not process the query" := by decide
  refine ⟨?_, ?_, ?_, ?_, ?_, ?_⟩
  · intro data hq
    simp [execute_wolfram_query, hq, happ]
  · intro data qr hq hs
    simp [execute_wolfram_query, hq, hs, happ]
  · intro data qr hq hs hp
    simp [execute_wolfram_query, hq, hs, hp, pod_lines]
  · intro t
    simp [pod_lines]
  · intro t
    simp [pod_lines]
  · intro pt hpt
    have h0 : ("" ++ ": " : String) = ": " := by decide
    simp [pod_lines, strip_cond, hpt, h0]

/-- Witness for C10: a body with no `queryresult` fails with the
could-not-process message, and a titleless pod produces a line that begins
with ": ". -/
theorem parsing_total_missing_fields_witness :
    execute_wolfram_query (Except.ok (WolframData.mk none)) =
      { success := false, result := none,
        error := some ("Wolfram Alpha " ++ "could not process the query"),
        source := some "wolfram_alpha" } ∧
    pod_lines [Pod.mk none (some [Subpod.mk (some "42")])] = [": " ++ "42"] :=
  ⟨parsing_total_missing_fields.1 (WolframData.mk none) rfl,
   parsing_total_missing_fields.2.2.2.2.2 "42" (by decide)⟩

end AugmentingWolfram
